import Mathlib

/-
Shallow embedding of the two checker flows of the pcm repository:
  src/scripts/validate-setup.py  (the Structural Validator)
  src/scripts/test-startup.py    (the Startup Prober)

The filesystem is modelled as a total map from path strings to a path
state (absent, a file, or a directory); Python's `Path(p).exists()` and
`Path(p).is_dir()` become the two boolean observers below.  Dynamic
imports and calls that may raise are modelled by an environment record
holding, for each potentially raising operation, the exception it raises
(`none` = the operation succeeds).  A Python exception is a pair of its
class test `isinstance(e, ImportError)` and its message text.  Each
`print` call becomes one element of an output list, carrying the exact
string the script prints (f-string interpolations become `++`).
-/

namespace PCM

/-- A Python exception as the scripts observe it: whether it is an
`ImportError` (the only class the code discriminates on) and its text. -/
structure Exc where
  isImportError : Bool
  msg : String
deriving DecidableEq, Repr

/-- State of one filesystem path: absent, an existing file, or an
existing directory. -/
inductive PathState where
  | absent
  | file
  | dir
deriving DecidableEq, Repr

/-- Python `Path(p).exists()`. -/
def PathState.existsb : PathState → Bool
  | .absent => false
  | .file => true
  | .dir => true

/-- Python `Path(p).is_dir()`. -/
def PathState.is_dir : PathState → Bool
  | .dir => true
  | _ => false

/-- check_file_exists from validate-setup.py: reports pass when
`Path(file_path).exists()`, printing one status line either way. -/
def check_file_exists (fs : String → PathState) (file_path description : String) :
    Bool × String :=
  if (fs file_path).existsb then
    (true, "✓ " ++ description ++ ": " ++ file_path)
  else
    (false, "✗ " ++ description ++ ": " ++ file_path ++ " (NOT FOUND)")

/-- check_directory_exists from validate-setup.py: reports pass when
`Path(dir_path).exists() and Path(dir_path).is_dir()`. -/
def check_directory_exists (fs : String → PathState) (dir_path description : String) :
    Bool × String :=
  if (fs dir_path).existsb && (fs dir_path).is_dir then
    (true, "✓ " ++ description ++ ": " ++ dir_path)
  else
    (false, "✗ " ++ description ++ ": " ++ dir_path ++ " (NOT FOUND)")

/-- The structure_checks constant list of validate-setup.py. -/
def structure_checks : List (String × String) :=
  [("backend/src/main.py", "Backend main application"),
   ("backend/src/config.py", "Backend configuration"),
   ("backend/requirements.txt", "Backend dependencies"),
   ("backend/alembic.ini", "Database migrations config"),
   ("frontend/package.json", "Frontend dependencies"),
   ("docker-compose.yml", "Docker composition"),
   (".env.example", "Environment template")]

/-- The directory_checks constant list of validate-setup.py. -/
def directory_checks : List (String × String) :=
  [("backend/src/api", "API routes directory"),
   ("backend/src/models", "Database models directory"),
   ("backend/src/services", "Business logic directory"),
   ("backend/tests", "Backend tests directory"),
   ("frontend/src", "Frontend source directory"),
   ("backend/alembic/versions", "Migration versions")]

/-- Behaviour of the configuration probe's three raising steps:
the `from src.config import get_settings` statement, the
`get_settings()` call, and the `settings.app_name` attribute read.
A `some e` field means that step raises `e`; when nothing raises,
the attribute read returns `appName`. -/
structure ConfigEnv where
  importConfigErr : Option Exc
  getSettingsErr : Option Exc
  appNameErr : Option Exc
  appName : String
deriving DecidableEq, Repr

/-- Body of the `try:` block of section 3 of validate-setup.py's main.
On an exception the handler receives the lines printed before the raise
together with the exception (import, call, attribute read, then the two
success prints; the `app_name` f-string is evaluated before its print). -/
def validate_tryConfig (cfg : ConfigEnv) : Except (List String × Exc) (List String) :=
  match cfg.importConfigErr with
  | some e => .error ([], e)
  | none =>
    match cfg.getSettingsErr with
    | some e => .error ([], e)
    | none =>
      match cfg.appNameErr with
      | some e => .error (["✓ Configuration loaded successfully"], e)
      | none => .ok ["✓ Configuration loaded successfully",
                     "✓ App name: " ++ cfg.appName]

/-- Section 3 of validate-setup.py's main: the try with its two handlers,
`except ImportError` then `except Exception`; the boolean is the
contribution to all_good. -/
def configSection (cfg : ConfigEnv) : Bool × List String :=
  match validate_tryConfig cfg with
  | .ok ls => (true, ls)
  | .error (ls, e) =>
    (false, ls ++ [if e.isImportError then
                     "✗ Configuration import failed: " ++ e.msg
                   else
                     "✗ Configuration error: " ++ e.msg])

/-- The string "=" * 50. -/
def eq50 : String := String.mk (List.replicate 50 '=')

/-- The string "━" * 50. -/
def bar50 : String := String.mk (List.replicate 50 '━')

/-- The numbered next-steps block printed by validate-setup.py on success. -/
def next_steps : List String :=
  ["\nNext steps:",
   "1. Copy .env.example to .env and configure your settings",
   "2. Start services: docker-compose up -d",
   "3. Run database migrations: alembic upgrade head",
   "4. Access the application:",
   "   - Frontend: http://localhost:3000",
   "   - Backend API: http://localhost:8000/docs"]

/-- main of validate-setup.py: runs the three check groups in order,
accumulating all_good, and returns the exit code with the printed lines. -/
def validate_main (fs : String → PathState) (cfg : ConfigEnv) : Nat × List String :=
  let s := structure_checks.map fun it => check_file_exists fs it.1 it.2
  let d := directory_checks.map fun it => check_directory_exists fs it.1 it.2
  let c := configSection cfg
  let all_good := (s.all fun r => r.1) && (d.all fun r => r.1) && c.1
  let out :=
    ["PCM Photo Management System - Setup Validation", eq50,
     "\n1. Project Structure:"] ++ (s.map fun r => r.2) ++
    ["\n2. Directory Structure:"] ++ (d.map fun r => r.2) ++
    ["\n3. Backend Configuration Test:"] ++ c.2 ++
    ["\n" ++ eq50] ++
    (if all_good then
       "✅ All validations passed! Setup is complete." :: next_steps
     else
       ["❌ Some validations failed. Please check the issues above."])
  (if all_good then 0 else 1, out)

/-- The list of individual CheckResults of one Structural Validator run:
the seven file checks, the six directory checks, the configuration check. -/
def validate_checkResults (fs : String → PathState) (cfg : ConfigEnv) : List Bool :=
  (structure_checks.map fun it => (check_file_exists fs it.1 it.2).1) ++
  (directory_checks.map fun it => (check_directory_exists fs it.1 it.2).1) ++
  [(configSection cfg).1]

/-- RunVerdict: the all_good accumulation pattern of both scripts,
a fold of logical AND over the check results, starting from True. -/
def runVerdict (rs : List Bool) : Bool :=
  rs.foldl (fun acc r => acc && r) true

/-- Body of the `try:` block of test_basic_imports in test-startup.py:
import, success print, get_settings() call, app-name print (the
attribute read inside the f-string happens before that print). -/
def basic_tryBody (cfg : ConfigEnv) : Except (List String × Exc) (List String) :=
  match cfg.importConfigErr with
  | some e => .error ([], e)
  | none =>
    match cfg.getSettingsErr with
    | some e => .error (["✓ Config 模組導入成功"], e)
    | none =>
      match cfg.appNameErr with
      | some e => .error (["✓ Config 模組導入成功"], e)
      | none => .ok ["✓ Config 模組導入成功",
                     "✓ 應用程式名稱: " ++ cfg.appName]

/-- test_basic_imports from test-startup.py: header print, the try body,
and the single `except Exception` handler. -/
def test_basic_imports (cfg : ConfigEnv) : Bool × List String :=
  match basic_tryBody cfg with
  | .ok ls => (true, "測試基本模組導入..." :: ls)
  | .error (ls, e) =>
    (false, "測試基本模組導入..." :: (ls ++ ["✗ 配置導入失敗: " ++ e.msg]))

/-- Behaviour of the three route-module imports of test_api_structure:
a `some e` field means that import statement raises `e`. -/
structure RouteEnv where
  healthErr : Option Exc
  photosErr : Option Exc
  albumsErr : Option Exc
deriving DecidableEq, Repr

/-- Body of the `try:` block of test_api_structure: the three imports in
declaration order, each followed by its success print; an exception
aborts the rest of the block. -/
def api_tryBody (r : RouteEnv) : Except (List String × Exc) (List String) :=
  match r.healthErr with
  | some e => .error ([], e)
  | none =>
    match r.photosErr with
    | some e => .error (["✓ Health API 路由已準備"], e)
    | none =>
      match r.albumsErr with
      | some e => .error (["✓ Health API 路由已準備", "✓ Photos API 路由已準備"], e)
      | none => .ok ["✓ Health API 路由已準備", "✓ Photos API 路由已準備",
                     "✓ Albums API 路由已準備"]

/-- test_api_structure from test-startup.py: header print, the try body,
and the single `except Exception` handler. -/
def test_api_structure (r : RouteEnv) : Bool × List String :=
  match api_tryBody r with
  | .ok ls => (true, "\n測試 API 結構..." :: ls)
  | .error (ls, e) =>
    (false, "\n測試 API 結構..." :: (ls ++ ["✗ API 結構測試失敗: " ++ e.msg]))

/-- The static endpoint capability report of show_available_endpoints
in test-startup.py, one element per print call. -/
def show_available_endpoints : List String :=
  ["\n🌐 目前可用的端點 (需要啟動服務):",
   bar50,
   "Backend API (http://localhost:8000):",
   "  📋 根端點: GET /",
   "  📋 API 文件: GET /docs",
   "  📋 健康檢查: GET /api/v1/health/",
   "  📋 存活檢查: GET /api/v1/health/live",
   "  📋 準備檢查: GET /api/v1/health/ready",
   "",
   "照片管理端點 (未連接資料庫會顯示錯誤):",
   "  📸 照片列表: GET /api/v1/photos",
   "  📸 上傳照片: POST /api/v1/photos",
   "  📁 相簿管理: GET /api/v1/albums",
   "  🔍 搜尋照片: GET /api/v1/search/photos",
   "",
   "Frontend (http://localhost:3000):",
   "  🎨 Next.js 應用程式 (需要 npm start)",
   "",
   "監控服務:",
   "  🌸 Flower (Celery): http://localhost:5555"]

/-- The static startup-command sequences of show_startup_commands
in test-startup.py, one element per print call. -/
def show_startup_commands : List String :=
  ["\n🚀 啟動命令:",
   bar50,
   "1. 使用 Docker (推薦):",
   "   docker-compose up -d",
   "",
   "2. 手動啟動 Backend:",
   "   cd backend",
   "   pip install -r requirements.txt",
   "   python src/main.py",
   "",
   "3. 手動啟動 Frontend:",
   "   cd frontend",
   "   npm install",
   "   npm run dev",
   "",
   "⚠️  注意: 需要先設定資料庫和 Redis 才能完全運作"]

/-- main of test-startup.py: runs both checks, then prints either the
capability report block or the failure banner, returning the printed lines. -/
def testStartup_main (cfg : ConfigEnv) (r : RouteEnv) : List String :=
  let imports := test_basic_imports cfg
  let api := test_api_structure r
  ["PCM 照片管理系統 - 啟動測試", eq50] ++ imports.2 ++ api.2 ++
  (if imports.1 && api.1 then
     "\n✅ 基礎架構準備完成！" ::
       (show_available_endpoints ++ show_startup_commands ++
        ["\n💡 提示: 即使沒有資料庫，你也可以啟動服務查看 API 文件"])
   else
     ["\n❌ 基礎架構還有問題需要修復"])

/-- The overall verdict of one Startup Prober run: the condition
`imports_ok and api_ok` of its main. -/
def testStartup_verdict (cfg : ConfigEnv) (r : RouteEnv) : Bool :=
  (test_basic_imports cfg).1 && (test_api_structure r).1

/-- The list of individual CheckResults of one Startup Prober run. -/
def testStartup_checkResults (cfg : ConfigEnv) (r : RouteEnv) : List Bool :=
  [(test_basic_imports cfg).1, (test_api_structure r).1]

/-- The first exception raised by the configuration probe's three steps,
if any: the probe passes exactly when this is none. -/
def ConfigEnv.firstErr (cfg : ConfigEnv) : Option Exc :=
  match cfg.importConfigErr with
  | some e => some e
  | none =>
    match cfg.getSettingsErr with
    | some e => some e
    | none => cfg.appNameErr

/-- A path, modelled as its list of components (for the entry blocks'
working-directory handling). -/
def path_parent (p : List String) : List String := p.dropLast

/-- The `__main__` block of test-startup.py runs
`os.chdir(Path(__file__).parent.parent)` before main: given the script
file's path and the invocation working directory, this is the working
directory main runs in. -/
def testStartup_entry_cwd (script_file _cwd : List String) : List String :=
  path_parent (path_parent script_file)

/-- The `__main__` block of validate-setup.py runs `sys.exit(main())`
with no chdir: given the invocation working directory, this is the
working directory main runs in. -/
def validate_entry_cwd (cwd : List String) : List String := cwd

/-- A configuration environment in which every step succeeds. -/
def cfgOk : ConfigEnv := ⟨none, none, none, "PCM Photo Management System"⟩

/-- A route environment in which all three imports succeed. -/
def routesOk : RouteEnv := ⟨none, none, none⟩

/-- A filesystem in which every required file path holds a file and
every required directory path holds a directory. -/
def fsAll : String → PathState := fun p =>
  if (structure_checks.map fun it => it.1).contains p then .file
  else if (directory_checks.map fun it => it.1).contains p then .dir
  else .absent

/-- fsAll with the docker-compose.yml file removed. -/
def fsNoCompose : String → PathState := fun p =>
  if p = "docker-compose.yml" then .absent else fsAll p

/-- A filesystem in which the path declared as the backend main
application file is a directory, and nothing else exists. -/
def fs_dirAtMain : String → PathState := fun p =>
  if p = "backend/src/main.py" then .dir else .absent

/-- A route environment where the health import raises and the other two
route modules would import fine. -/
def routesHealthBoom : RouteEnv := ⟨some ⟨false, "boom"⟩, none, none⟩

/-- routesHealthBoom with the albums import additionally broken. -/
def routesHealthBoomAlbumsBad : RouteEnv := ⟨some ⟨false, "boom"⟩, none, some ⟨false, "bad"⟩⟩

/-- A route environment where the health import succeeds, the photos
module's import raises, and the albums import is also broken. -/
def routesPhotosBoom : RouteEnv := ⟨none, some ⟨false, "pboom"⟩, some ⟨false, "bad"⟩⟩

/-- A configuration environment where the module imports but the
get_settings() call raises an ImportError from inside the call. -/
def cfgLateImportErr : ConfigEnv := ⟨none, some ⟨true, "No module named pydantic"⟩, none, ""⟩

/-- The all_good flag of validate-setup.py's main, written out: the
conjunction of the three check-group outcomes. -/
def validate_all_good (fs : String → PathState) (cfg : ConfigEnv) : Bool :=
  ((structure_checks.map fun it => check_file_exists fs it.1 it.2).all fun r => r.1) &&
  ((directory_checks.map fun it => check_directory_exists fs it.1 it.2).all fun r => r.1) &&
  (configSection cfg).1

/-- Two consecutive Structural Validator runs against one unchanged
filesystem and import behaviour. -/
def validate_twice (fs : String → PathState) (cfg : ConfigEnv) :
    (Nat × List String) × (Nat × List String) :=
  (validate_main fs cfg, validate_main fs cfg)

/-- Two consecutive Startup Prober runs against one unchanged import
behaviour. -/
def testStartup_twice (cfg : ConfigEnv) (r : RouteEnv) :
    List String × List String :=
  (testStartup_main cfg r, testStartup_main cfg r)

/- ------------------------------------------------------------------ -/
/- Helper lemmas.                                                      -/
/- ------------------------------------------------------------------ -/

theorem strHead_append (s t : String) (c : Char) (h : s.data.head? = some c) :
    (s ++ t).data.head? = some c := by
  rw [String.data_append]
  cases hs : s.data with
  | nil => rw [hs] at h; simp at h
  | cons a l => rw [hs] at h; simp at h; simp [hs, h]

theorem ne_of_head_ne (s t : String) (c : Char) (hs : s.data.head? = some c)
    (ht : t.data.head? ≠ some c) : t ≠ s := by
  intro h
  exact ht (h ▸ hs)

theorem check_file_line_head (fs : String → PathState) (p d : String) :
    (check_file_exists fs p d).2.data.head? = some '✓' ∨
    (check_file_exists fs p d).2.data.head? = some '✗' := by
  unfold check_file_exists
  split
  · left
    exact strHead_append _ _ _ (strHead_append _ _ _ (strHead_append "✓ " d '✓' rfl))
  · right
    exact strHead_append _ _ _
      (strHead_append _ _ _ (strHead_append _ _ _ (strHead_append "✗ " d '✗' rfl)))

theorem check_dir_line_head (fs : String → PathState) (p d : String) :
    (check_directory_exists fs p d).2.data.head? = some '✓' ∨
    (check_directory_exists fs p d).2.data.head? = some '✗' := by
  unfold check_directory_exists
  split
  · left
    exact strHead_append _ _ _ (strHead_append _ _ _ (strHead_append "✓ " d '✓' rfl))
  · right
    exact strHead_append _ _ _
      (strHead_append _ _ _ (strHead_append _ _ _ (strHead_append "✗ " d '✗' rfl)))

theorem configSection_line_head (cfg : ConfigEnv) (l : String)
    (h : l ∈ (configSection cfg).2) :
    l.data.head? = some '✓' ∨ l.data.head? = some '✗' := by
  rcases cfg with ⟨ic, gs, an, name⟩
  rcases ic with _ | e
  rotate_left
  · simp only [configSection, validate_tryConfig, List.nil_append,
      List.mem_singleton] at h
    subst h
    right
    split <;> exact strHead_append _ _ _ rfl
  rcases gs with _ | e
  rotate_left
  · simp only [configSection, validate_tryConfig, List.nil_append,
      List.mem_singleton] at h
    subst h
    right
    split <;> exact strHead_append _ _ _ rfl
  rcases an with _ | e
  · simp only [configSection, validate_tryConfig, List.mem_cons,
      List.mem_singleton, List.not_mem_nil, or_false] at h
    rcases h with rfl | rfl
    · left; rfl
    · left; exact strHead_append _ _ _ rfl
  · simp only [configSection, validate_tryConfig, List.mem_cons, List.mem_append,
      List.mem_singleton, List.not_mem_nil, or_false] at h
    rcases h with rfl | rfl
    · left; rfl
    · right; split <;> exact strHead_append _ _ _ rfl

theorem basic_line_class (cfg : ConfigEnv) (l : String)
    (h : l ∈ (test_basic_imports cfg).2) :
    l = "測試基本模組導入..." ∨ l.data.head? = some '✓' ∨ l.data.head? = some '✗' := by
  rcases cfg with ⟨ic, gs, an, name⟩
  rcases ic with _ | e
  rotate_left
  · simp only [test_basic_imports, basic_tryBody, List.nil_append, List.mem_cons,
      List.mem_singleton, List.not_mem_nil, or_false] at h
    rcases h with rfl | rfl
    · left; rfl
    · right; right; exact strHead_append _ _ _ rfl
  rcases gs with _ | e
  rotate_left
  · simp only [test_basic_imports, basic_tryBody, List.mem_cons, List.mem_append,
      List.mem_singleton, List.not_mem_nil, or_false] at h
    rcases h with rfl | rfl | rfl
    · left; rfl
    · right; left; rfl
    · right; right; exact strHead_append _ _ _ rfl
  rcases an with _ | e
  · simp only [test_basic_imports, basic_tryBody, List.mem_cons,
      List.mem_singleton, List.not_mem_nil, or_false] at h
    rcases h with rfl | rfl | rfl
    · left; rfl
    · right; left; rfl
    · right; left; exact strHead_append _ _ _ rfl
  · simp only [test_basic_imports, basic_tryBody, List.mem_cons, List.mem_append,
      List.mem_singleton, List.not_mem_nil, or_false] at h
    rcases h with rfl | rfl | rfl
    · left; rfl
    · right; left; rfl
    · right; right; exact strHead_append _ _ _ rfl

theorem api_line_class (r : RouteEnv) (l : String)
    (h : l ∈ (test_api_structure r).2) :
    l = "\n測試 API 結構..." ∨ l.data.head? = some '✓' ∨ l.data.head? = some '✗' := by
  rcases r with ⟨he, ph, al⟩
  rcases he with _ | e
  rotate_left
  · simp only [test_api_structure, api_tryBody, List.nil_append, List.mem_cons,
      List.mem_singleton, List.not_mem_nil, or_false] at h
    rcases h with rfl | rfl
    · left; rfl
    · right; right; exact strHead_append _ _ _ rfl
  rcases ph with _ | e
  rotate_left
  · simp only [test_api_structure, api_tryBody, List.mem_cons, List.mem_append,
      List.mem_singleton, List.not_mem_nil, or_false] at h
    rcases h with rfl | rfl | rfl
    · left; rfl
    · right; left; rfl
    · right; right; exact strHead_append _ _ _ rfl
  rcases al with _ | e
  · simp only [test_api_structure, api_tryBody, List.mem_cons,
      List.mem_singleton, List.not_mem_nil, or_false] at h
    rcases h with rfl | rfl | rfl | rfl
    · left; rfl
    · right; left; rfl
    · right; left; rfl
    · right; left; rfl
  · simp only [test_api_structure, api_tryBody, List.mem_cons, List.mem_append,
      List.mem_singleton, List.not_mem_nil, or_false] at h
    rcases h with rfl | (rfl | rfl) | rfl
    · left; rfl
    · right; left; rfl
    · right; left; rfl
    · right; right; exact strHead_append _ _ _ rfl

theorem basic_header_mem (cfg : ConfigEnv) :
    "測試基本模組導入..." ∈ (test_basic_imports cfg).2 := by
  unfold test_basic_imports
  rcases hb : basic_tryBody cfg with ls | p
  · exact List.mem_cons_self _ _
  · exact List.mem_cons_self _ _

theorem api_header_mem (r : RouteEnv) :
    "\n測試 API 結構..." ∈ (test_api_structure r).2 := by
  unfold test_api_structure
  rcases hb : api_tryBody r with ls | p
  · exact List.mem_cons_self _ _
  · exact List.mem_cons_self _ _

theorem foldl_and_eq (rs : List Bool) :
    ∀ b : Bool, rs.foldl (fun acc r => acc && r) b = (b && rs.all id) := by
  induction rs with
  | nil => intro b; simp
  | cons x xs ih =>
    intro b
    rw [List.foldl_cons, ih (b && x), List.all_cons, id_eq, Bool.and_assoc]

theorem testStartup_main_eq (cfg : ConfigEnv) (r : RouteEnv) :
    testStartup_main cfg r =
      ["PCM 照片管理系統 - 啟動測試", eq50] ++ (test_basic_imports cfg).2 ++
        (test_api_structure r).2 ++
        (if testStartup_verdict cfg r then
           "\n✅ 基礎架構準備完成！" ::
             (show_available_endpoints ++ show_startup_commands ++
              ["\n💡 提示: 即使沒有資料庫，你也可以啟動服務查看 API 文件"])
         else ["\n❌ 基礎架構還有問題需要修復"]) := rfl

theorem validate_exit_spec (fs : String → PathState) (cfg : ConfigEnv) :
    (validate_main fs cfg).1 = if validate_all_good fs cfg then 0 else 1 := rfl

theorem validate_out_spec (fs : String → PathState) (cfg : ConfigEnv) :
    (validate_main fs cfg).2 =
      ["PCM Photo Management System - Setup Validation", eq50,
       "\n1. Project Structure:"] ++
      ((structure_checks.map fun it => check_file_exists fs it.1 it.2).map
        fun r => r.2) ++
      ["\n2. Directory Structure:"] ++
      ((directory_checks.map fun it => check_directory_exists fs it.1 it.2).map
        fun r => r.2) ++
      ["\n3. Backend Configuration Test:"] ++ (configSection cfg).2 ++
      ["\n" ++ eq50] ++
      (if validate_all_good fs cfg then
         "✅ All validations passed! Setup is complete." :: next_steps
       else ["❌ Some validations failed. Please check the issues above."]) := rfl

theorem testStartup_out_mem (cfg : ConfigEnv) (r : RouteEnv) (t : String)
    (hc1 : t.data.head? ≠ some '✓') (hc2 : t.data.head? ≠ some '✗')
    (hs1 : t ≠ "PCM 照片管理系統 - 啟動測試") (hs2 : t ≠ eq50)
    (hs3 : t ≠ "測試基本模組導入...") (hs4 : t ≠ "\n測試 API 結構...") :
    (t ∈ testStartup_main cfg r ↔
      if testStartup_verdict cfg r then
        t ∈ "\n✅ 基礎架構準備完成！" ::
          (show_available_endpoints ++ show_startup_commands ++
           ["\n💡 提示: 即使沒有資料庫，你也可以啟動服務查看 API 文件"])
      else t = "\n❌ 基礎架構還有問題需要修復") := by
  have hb : t ∉ (test_basic_imports cfg).2 := by
    intro hm
    rcases basic_line_class cfg t hm with h | h | h
    · exact hs3 h
    · exact hc1 h
    · exact hc2 h
  have ha : t ∉ (test_api_structure r).2 := by
    intro hm
    rcases api_line_class r t hm with h | h | h
    · exact hs4 h
    · exact hc1 h
    · exact hc2 h
  rw [testStartup_main_eq]
  cases hv : testStartup_verdict cfg r <;>
    simp only [hv, Bool.false_eq_true, Bool.true_eq_false, ite_true, ite_false,
      if_true, if_false, List.cons_append, List.nil_append, List.mem_cons,
      List.mem_append, List.not_mem_nil, or_false, false_or] <;>
    tauto

theorem validate_out_mem (fs : String → PathState) (cfg : ConfigEnv) (t : String)
    (hc1 : t.data.head? ≠ some '✓') (hc2 : t.data.head? ≠ some '✗')
    (hs1 : t ≠ "PCM Photo Management System - Setup Validation") (hs2 : t ≠ eq50)
    (hs3 : t ≠ "\n1. Project Structure:") (hs4 : t ≠ "\n2. Directory Structure:")
    (hs5 : t ≠ "\n3. Backend Configuration Test:") (hs6 : t ≠ "\n" ++ eq50) :
    (t ∈ (validate_main fs cfg).2 ↔
      if validate_all_good fs cfg then
        t ∈ "✅ All validations passed! Setup is complete." :: next_steps
      else t = "❌ Some validations failed. Please check the issues above.") := by
  have hsl : t ∉ (structure_checks.map fun it => check_file_exists fs it.1 it.2).map
      fun r => r.2 := by
    intro hm
    rcases List.mem_map.mp hm with ⟨r0, hr0, hr0t⟩
    rcases List.mem_map.mp hr0 with ⟨it, _, hit⟩
    subst hit
    rcases check_file_line_head fs it.1 it.2 with h | h
    · exact hc1 (hr0t ▸ h)
    · exact hc2 (hr0t ▸ h)
  have hdl : t ∉ (directory_checks.map fun it => check_directory_exists fs it.1 it.2).map
      fun r => r.2 := by
    intro hm
    rcases List.mem_map.mp hm with ⟨r0, hr0, hr0t⟩
    rcases List.mem_map.mp hr0 with ⟨it, _, hit⟩
    subst hit
    rcases check_dir_line_head fs it.1 it.2 with h | h
    · exact hc1 (hr0t ▸ h)
    · exact hc2 (hr0t ▸ h)
  have hcl : t ∉ (configSection cfg).2 := by
    intro hm
    rcases configSection_line_head cfg t hm with h | h
    · exact hc1 h
    · exact hc2 h
  rw [validate_out_spec]
  cases hv : validate_all_good fs cfg <;>
    simp only [hv, Bool.false_eq_true, Bool.true_eq_false, ite_true, ite_false,
      if_true, if_false, List.cons_append, List.nil_append, List.mem_cons,
      List.mem_append, List.not_mem_nil, or_false, false_or] <;>
    tauto

theorem runVerdict_eq_all (rs : List Bool) : runVerdict rs = rs.all id := by
  rw [runVerdict, foldl_and_eq, Bool.true_and]

theorem all_map_general {α β : Type} (l : List α) (f : α → β) (p : β → Bool) :
    (l.map f).all p = l.all fun x => p (f x) := by
  induction l with
  | nil => rfl
  | cons x xs ih => simp only [List.map_cons, List.all_cons, ih]

theorem runVerdict_validate (fs : String → PathState) (cfg : ConfigEnv) :
    runVerdict (validate_checkResults fs cfg) = validate_all_good fs cfg := by
  rw [runVerdict_eq_all]
  unfold validate_checkResults validate_all_good
  rw [List.all_append, List.all_append, all_map_general, all_map_general,
    all_map_general, all_map_general]
  simp [Bool.and_assoc]

/- ------------------------------------------------------------------ -/
/- Claim theorems.                                                     -/
/- ------------------------------------------------------------------ -/

/-- Claim C1: in both flows the overall RunVerdict is the logical AND of
all the individual CheckResults of the run — the Structural Validator
exits 0 exactly when the AND of its 14 results is true, the Startup
Prober's verdict is the AND of its two results, and the AND-fold of an
empty check set is vacuously true. -/
theorem C1_verdict_is_and_of_results :
    (∀ rs : List Bool, runVerdict rs = rs.all id) ∧
    runVerdict [] = true ∧
    (∀ (fs : String → PathState) (cfg : ConfigEnv),
      ((validate_main fs cfg).1 = 0 ↔
        runVerdict (validate_checkResults fs cfg) = true)) ∧
    (∀ (cfg : ConfigEnv) (r : RouteEnv),
      testStartup_verdict cfg r = runVerdict (testStartup_checkResults cfg r)) := by
  refine ⟨runVerdict_eq_all, rfl, ?_, ?_⟩
  · intro fs cfg
    rw [validate_exit_spec, runVerdict_validate]
    cases validate_all_good fs cfg <;> simp
  · intro cfg r
    rw [runVerdict_eq_all]
    simp [testStartup_verdict, testStartup_checkResults]

/-- Claim C2: the Structural Validator's entry point returns 0 exactly
when every check passed and 1 exactly when at least one failed, and it
prints the success message and each numbered next-steps line exactly in
the all-passed case. -/
theorem C2_validator_exit_and_success_output :
    ∀ (fs : String → PathState) (cfg : ConfigEnv),
      ((validate_main fs cfg).1 = 0 ↔
        runVerdict (validate_checkResults fs cfg) = true) ∧
      ((validate_main fs cfg).1 = 1 ↔
        runVerdict (validate_checkResults fs cfg) = false) ∧
      ("✅ All validations passed! Setup is complete." ∈ (validate_main fs cfg).2 ↔
        runVerdict (validate_checkResults fs cfg) = true) ∧
      (∀ l ∈ next_steps,
        (l ∈ (validate_main fs cfg).2 ↔
          runVerdict (validate_checkResults fs cfg) = true)) := by
  intro fs cfg
  rw [runVerdict_validate, validate_exit_spec]
  refine ⟨?_, ?_, ?_, ?_⟩
  · cases validate_all_good fs cfg <;> simp
  · cases validate_all_good fs cfg <;> simp
  · rw [validate_out_mem fs cfg _ (by decide) (by decide) (by decide) (by decide)
      (by decide) (by decide) (by decide) (by decide)]
    cases hv : validate_all_good fs cfg <;> simp [hv]
  · intro l hl
    fin_cases hl <;>
      rw [validate_out_mem fs cfg _ (by decide) (by decide) (by decide) (by decide)
        (by decide) (by decide) (by decide) (by decide)] <;>
      cases hv : validate_all_good fs cfg <;> simp [hv] <;> decide

/-- Witness for C2: at a filesystem holding every required path and a
successful configuration probe, instantiated at the first numbered
next-steps line. -/
theorem C2_witness :
    "1. Copy .env.example to .env and configure your settings" ∈ next_steps ∧
    ("1. Copy .env.example to .env and configure your settings" ∈
        (validate_main fsAll cfgOk).2 ↔
      runVerdict (validate_checkResults fsAll cfgOk) = true) :=
  ⟨by decide, (C2_validator_exit_and_success_output fsAll cfgOk).2.2.2 _ (by decide)⟩

/-- Claim C3 fails as stated: with the health route import failing, also
breaking the albums route import changes nothing in the run's result —
the albums check neither executes nor reports its own failure, so checks
inside the route group do gate one another. -/
theorem C3_counterexample :
    routesHealthBoom.albumsErr ≠ routesHealthBoomAlbumsBad.albumsErr ∧
    test_api_structure routesHealthBoom = test_api_structure routesHealthBoomAlbumsBad ∧
    test_api_structure routesHealthBoomAlbumsBad =
      (false, ["\n測試 API 結構...", "✗ API 結構測試失敗: boom"]) :=
  ⟨by decide, rfl, rfl⟩

/-- Claim C3 amended: independence holds for the Structural Validator's
path checks — each check's result depends only on the filesystem state
at its own path, and every one of the 14 declared checks reports a
result in every run — and the Startup Prober's two top-level checks
both always execute; within the route-import group, however, a failing
earlier import prevents the later imports from running. -/
theorem C3_amended_independence :
    ∀ (fs fs' : String → PathState) (cfg : ConfigEnv) (r : RouteEnv) (q d : String),
      fs q = fs' q →
      check_file_exists fs q d = check_file_exists fs' q d ∧
      check_directory_exists fs q d = check_directory_exists fs' q d ∧
      (validate_checkResults fs cfg).length = 14 ∧
      "測試基本模組導入..." ∈ testStartup_main cfg r ∧
      "\n測試 API 結構..." ∈ testStartup_main cfg r := by
  intro fs fs' cfg r q d h
  refine ⟨?_, ?_, ?_, ?_, ?_⟩
  · unfold check_file_exists
    rw [h]
  · unfold check_directory_exists
    rw [h]
  · simp only [validate_checkResults, List.length_append, List.length_map]
    rfl
  · rw [testStartup_main_eq]
    refine List.mem_append_left _ (List.mem_append_left _ (List.mem_append_right _ ?_))
    exact basic_header_mem cfg
  · rw [testStartup_main_eq]
    refine List.mem_append_left _ (List.mem_append_right _ ?_)
    exact api_header_mem r

/-- Witness for C3's amended theorem at a concrete pair of filesystems
that differ only at docker-compose.yml, looking at the backend main
application check. -/
theorem C3_witness :
    fsAll "backend/src/main.py" = fsNoCompose "backend/src/main.py" ∧
    (check_file_exists fsAll "backend/src/main.py" "Backend main application" =
       check_file_exists fsNoCompose "backend/src/main.py" "Backend main application" ∧
     check_directory_exists fsAll "backend/src/main.py" "Backend main application" =
       check_directory_exists fsNoCompose "backend/src/main.py" "Backend main application" ∧
     (validate_checkResults fsAll cfgOk).length = 14 ∧
     "測試基本模組導入..." ∈ testStartup_main cfgOk routesOk ∧
     "\n測試 API 結構..." ∈ testStartup_main cfgOk routesOk) :=
  ⟨by decide,
   C3_amended_independence fsAll fsNoCompose cfgOk routesOk
     "backend/src/main.py" "Backend main application" (by decide)⟩

/-- Claim C4 fails as stated: at a filesystem where the path declared as
the backend main application file is a directory, the file-declared
check still passes — check_file_exists tests only existence, not the
path kind. -/
theorem C4_counterexample :
    fs_dirAtMain "backend/src/main.py" = PathState.dir ∧
    (check_file_exists fs_dirAtMain "backend/src/main.py"
        "Backend main application").1 = true := by
  constructor <;> rfl

/-- Claim C4 amended: a check declared for a file passes exactly when the
path exists, of any kind; a check declared for a directory passes
exactly when the path exists as a directory. -/
theorem C4_amended_kinds :
    ∀ (fs : String → PathState) (p d : String),
      ((check_file_exists fs p d).1 = true ↔ fs p ≠ PathState.absent) ∧
      ((check_directory_exists fs p d).1 = true ↔ fs p = PathState.dir) := by
  intro fs p d
  cases hfp : fs p <;>
    simp [check_file_exists, check_directory_exists, PathState.existsb,
      PathState.is_dir, hfp]

/-- Claim C5 fails as stated: when the configuration module imports fine
but the get_settings() call raises an ImportError, the Structural
Validator classifies and reports the failure as a configuration-import
failure, although the phase was a post-import call — classification
follows the exception's type, not the phase that raised it. -/
theorem C5_counterexample :
    cfgLateImportErr.importConfigErr = none ∧
    configSection cfgLateImportErr =
      (false, ["✗ Configuration import failed: No module named pydantic"]) :=
  ⟨rfl, rfl⟩

/-- Claim C5 amended: when the configuration probe fails, the Structural
Validator classifies the captured error by its exception type — an
ImportError yields the import-failure message and any other exception
the runtime-error message, regardless of the phase that raised it —
while the Startup Prober reports one unclassified failure message; in
every case the underlying failure text is reported. -/
theorem C5_amended_classification :
    ∀ (cfg : ConfigEnv) (e : Exc),
      cfg.firstErr = some e →
      ((configSection cfg).1 = false ∧
       (if e.isImportError then "✗ Configuration import failed: " ++ e.msg
        else "✗ Configuration error: " ++ e.msg) ∈ (configSection cfg).2) ∧
      ((test_basic_imports cfg).1 = false ∧
       ("✗ 配置導入失敗: " ++ e.msg) ∈ (test_basic_imports cfg).2) := by
  intro cfg e h
  rcases cfg with ⟨ic, gs, an, nm⟩
  rcases ic with _ | e1
  rotate_left
  · simp only [ConfigEnv.firstErr, Option.some.injEq] at h
    subst h
    simp [configSection, validate_tryConfig, test_basic_imports, basic_tryBody]
  rcases gs with _ | e2
  rotate_left
  · simp only [ConfigEnv.firstErr, Option.some.injEq] at h
    subst h
    simp [configSection, validate_tryConfig, test_basic_imports, basic_tryBody]
  rcases an with _ | e3
  · simp [ConfigEnv.firstErr] at h
  · simp only [ConfigEnv.firstErr, Option.some.injEq] at h
    subst h
    simp [configSection, validate_tryConfig, test_basic_imports, basic_tryBody]

/-- Witness for C5's amended theorem at the environment whose
get_settings() call raises an ImportError. -/
theorem C5_witness :
    cfgLateImportErr.firstErr = some ⟨true, "No module named pydantic"⟩ ∧
    (((configSection cfgLateImportErr).1 = false ∧
      (if (true : Bool) then
         "✗ Configuration import failed: " ++ "No module named pydantic"
       else "✗ Configuration error: " ++ "No module named pydantic") ∈
        (configSection cfgLateImportErr).2) ∧
     ((test_basic_imports cfgLateImportErr).1 = false ∧
      ("✗ 配置導入失敗: " ++ "No module named pydantic") ∈
        (test_basic_imports cfgLateImportErr).2)) :=
  ⟨rfl, C5_amended_classification cfgLateImportErr ⟨true, "No module named pydantic"⟩ rfl⟩

/-- Claim C6: the Startup Prober prints the endpoint capability report
and the startup-command block exactly when the configuration probe and
all three route-module imports succeed, and exactly otherwise it prints
the failure banner. -/
theorem C6_capability_report_iff :
    ∀ (cfg : ConfigEnv) (r : RouteEnv),
      (testStartup_verdict cfg r =
        (cfg.importConfigErr.isNone && cfg.getSettingsErr.isNone &&
         cfg.appNameErr.isNone && r.healthErr.isNone && r.photosErr.isNone &&
         r.albumsErr.isNone)) ∧
      ("\n🌐 目前可用的端點 (需要啟動服務):" ∈ testStartup_main cfg r ↔
        testStartup_verdict cfg r = true) ∧
      ("\n🚀 啟動命令:" ∈ testStartup_main cfg r ↔
        testStartup_verdict cfg r = true) ∧
      ("\n❌ 基礎架構還有問題需要修復" ∈ testStartup_main cfg r ↔
        testStartup_verdict cfg r = false) := by
  intro cfg r
  refine ⟨?_, ?_, ?_, ?_⟩
  · rcases cfg with ⟨ic, gs, an, nm⟩
    rcases r with ⟨he, ph, al⟩
    rcases ic with _ | e1 <;> rcases gs with _ | e2 <;> rcases an with _ | e3 <;>
      rcases he with _ | e4 <;> rcases ph with _ | e5 <;> rcases al with _ | e6 <;>
      rfl
  · rw [testStartup_out_mem cfg r _ (by decide) (by decide) (by decide) (by decide)
      (by decide) (by decide)]
    cases hv : testStartup_verdict cfg r <;> simp [hv]
    decide
  · rw [testStartup_out_mem cfg r _ (by decide) (by decide) (by decide) (by decide)
      (by decide) (by decide)]
    cases hv : testStartup_verdict cfg r <;> simp [hv]
    decide
  · rw [testStartup_out_mem cfg r _ (by decide) (by decide) (by decide) (by decide)
      (by decide) (by decide)]
    cases hv : testStartup_verdict cfg r <;> simp [hv]
    decide

/-- Claim C7: for every filesystem state and every outcome of the module
imports, both entry points run to completion and return normally — the
Structural Validator always produces exit code 0 or 1 together with one
of its two summary lines, and the Startup Prober always ends in one of
its two banners; every failure was absorbed into a CheckResult. -/
theorem C7_runs_complete :
    ∀ (fs : String → PathState) (cfg : ConfigEnv) (r : RouteEnv),
      ((validate_main fs cfg).1 = 0 ∨ (validate_main fs cfg).1 = 1) ∧
      ("✅ All validations passed! Setup is complete." ∈ (validate_main fs cfg).2 ∨
       "❌ Some validations failed. Please check the issues above." ∈
         (validate_main fs cfg).2) ∧
      ("\n✅ 基礎架構準備完成！" ∈ testStartup_main cfg r ∨
       "\n❌ 基礎架構還有問題需要修復" ∈ testStartup_main cfg r) := by
  intro fs cfg r
  refine ⟨?_, ?_, ?_⟩
  · rw [validate_exit_spec]
    cases validate_all_good fs cfg <;> simp
  · rw [validate_out_spec]
    cases hv : validate_all_good fs cfg
    · right
      simp [hv]
    · left
      simp [hv]
  · rw [testStartup_main_eq]
    cases hv : testStartup_verdict cfg r
    · right
      simp [hv]
    · left
      simp [hv]

/-- Claim C8 fails as stated: invoked from a working directory that is
not the project root, the Structural Validator's entry block leaves the
working directory unchanged — only the Startup Prober's entry block
normalizes it to the script's grandparent, the project root. -/
theorem C8_counterexample :
    testStartup_entry_cwd ["home", "pcm", "scripts", "test-startup.py"] ["tmp"] =
      ["home", "pcm"] ∧
    validate_entry_cwd ["tmp"] = ["tmp"] ∧
    (["tmp"] : List String) ≠ ["home", "pcm"] := by
  refine ⟨rfl, rfl, by decide⟩

/-- Claim C8 amended: only the Startup Prober normalizes the working
directory — its entry block always changes into the script file's
grandparent directory, the project root, while the Structural
Validator's entry block runs main in the unchanged invocation working
directory. -/
theorem C8_amended_cwd :
    ∀ (root : List String) (f : String) (cwd : List String),
      testStartup_entry_cwd (root ++ ["scripts", f]) cwd = root ∧
      validate_entry_cwd cwd = cwd := by
  intro root f cwd
  constructor
  · show path_parent (path_parent (root ++ ["scripts", f])) = root
    have h1 : root ++ ["scripts", f] = (root ++ ["scripts"]) ++ [f] := by simp
    rw [path_parent, path_parent, h1, List.dropLast_concat, List.dropLast_concat]
  · rfl

/-- Claim C9: both flows are deterministic pure functions of the
project-tree state and the import behaviour, so two consecutive runs
against unchanged inputs produce identical results and outputs. -/
theorem C9_idempotent :
    ∀ (fs : String → PathState) (cfg : ConfigEnv) (r : RouteEnv),
      (validate_twice fs cfg).1 = (validate_twice fs cfg).2 ∧
      (testStartup_twice cfg r).1 = (testStartup_twice cfg r).2 := by
  intro fs cfg r
  exact ⟨rfl, rfl⟩

/-- Claim C10: the three route-module imports form one guarded block with
a single combined outcome — it passes exactly when all three succeed —
and whichever import raises first ends the block: when health raises,
photos and albums are not attempted; when health succeeds and photos
raises, albums is not attempted; and in every case the run's result is
fully determined by the first exception, whose text alone is reported. -/
theorem C10_grouped_route_imports :
    ∀ (r : RouteEnv) (e : Exc),
      ((test_api_structure r).1 =
        (r.healthErr.isNone && r.photosErr.isNone && r.albumsErr.isNone)) ∧
      (r.healthErr = some e →
        test_api_structure r =
          (false, ["\n測試 API 結構...", "✗ API 結構測試失敗: " ++ e.msg])) ∧
      (r.healthErr = none → r.photosErr = some e →
        test_api_structure r =
          (false, ["\n測試 API 結構...", "✓ Health API 路由已準備",
                   "✗ API 結構測試失敗: " ++ e.msg])) ∧
      (r.healthErr = none → r.photosErr = none → r.albumsErr = some e →
        test_api_structure r =
          (false, ["\n測試 API 結構...", "✓ Health API 路由已準備",
                   "✓ Photos API 路由已準備",
                   "✗ API 結構測試失敗: " ++ e.msg])) := by
  intro r e
  rcases r with ⟨he, ph, al⟩
  refine ⟨?_, ?_, ?_, ?_⟩
  · rcases he with _ | e4 <;> rcases ph with _ | e5 <;> rcases al with _ | e6 <;> rfl
  · intro h
    simp only at h
    subst h
    rfl
  · intro h1 h2
    simp only at h1 h2
    subst h1
    subst h2
    rfl
  · intro h1 h2 h3
    simp only at h1 h2 h3
    subst h1
    subst h2
    subst h3
    rfl

/-- Witness for C10, exercising two failure positions: health raising
with the albums import also broken (the breakage leaves no trace), and
health succeeding while photos raises with the albums import also
broken (albums is not attempted, only the photos text is reported). -/
theorem C10_witness :
    (routesHealthBoomAlbumsBad.healthErr = some ⟨false, "boom"⟩ ∧
     test_api_structure routesHealthBoomAlbumsBad =
       (false, ["\n測試 API 結構...", "✗ API 結構測試失敗: " ++ "boom"])) ∧
    (routesPhotosBoom.healthErr = none ∧
     routesPhotosBoom.photosErr = some ⟨false, "pboom"⟩ ∧
     test_api_structure routesPhotosBoom =
       (false, ["\n測試 API 結構...", "✓ Health API 路由已準備",
                "✗ API 結構測試失敗: " ++ "pboom"])) :=
  ⟨⟨rfl, (C10_grouped_route_imports routesHealthBoomAlbumsBad ⟨false, "boom"⟩).2.1 rfl⟩,
   ⟨rfl, rfl,
    (C10_grouped_route_imports routesPhotosBoom ⟨false, "pboom"⟩).2.2.1 rfl rfl⟩⟩

end PCM
